import Mathlib

/-!
Shallow embedding of the Karo agent orchestrator
(`karo/core/base_agent.py`) and proofs about the behaviour of
`BaseAgent.run`.

Modelling conventions:
* Python values that cross the provider/tool/memory boundaries are
  modelled by explicit inductive types; `isinstance` checks against a
  configured pydantic class are modelled by membership of the class
  name in the list of classes the value is an instance of.
* Exceptions raised by the provider, by a tool, or by the memory
  backend are modelled as explicit behaviour constructors; `json.loads`
  is modelled as an uninterpreted function `String → Except String String`
  passed to `run` (the parsed dictionary is kept abstract as a `String`).
* String renderings of Python objects (for example `str(input_data)`,
  `type(response)`, `strftime` timestamps, rendered JSON schemas) are
  abstracted to plain strings carried by the model.
* Keyword pass-through arguments (`**kwargs`) are not modelled; no claim
  mentions them.
-/

namespace Karo

/-- A tool-call request as the provider returns it: the generated call
id, the function name and the raw JSON argument string
(`tool_call.id`, `tool_call.function.name`, `tool_call.function.arguments`). -/
structure ToolCall where
  id : String
  name : String
  arguments : String
deriving Repr, DecidableEq

/-- The serialised output of a tool run (`tool_output.model_dump_json()`):
the success flag and optional error message that every Karo tool output
schema carries, plus the tool specific fields kept abstract. -/
structure ToolOutput where
  success : Bool
  error_message : Option String
  result : String
deriving Repr, DecidableEq

/-- The `content` of a tool-result message appended by `BaseAgent.run`:
either an inline failure object built with `json.dumps` carrying
`success=False` and an error message, or the dump of a tool output. -/
inductive ToolContent where
  | jsonFailure (error_message : String)
  | dumped (out : ToolOutput)
deriving Repr, DecidableEq

/-- The `success` field of the JSON object carried by a tool-result
message content. -/
def ToolContent.successFlag : ToolContent → Bool
  | .jsonFailure _ => false
  | .dumped out => out.success

/-- The `error_message` field of the JSON object carried by a tool-result
message content, when present. -/
def ToolContent.errorText : ToolContent → Option String
  | .jsonFailure m => some m
  | .dumped out => out.error_message

/-- One entry of the message list handed to the provider: system and
user messages built by `_create_prompt`, the dumped assistant tool-call
message (`assistant_message.model_dump(exclude_unset=True)`), and
tool-result dictionaries. -/
inductive Message where
  | system (content : String)
  | user (content : String)
  | assistantToolCalls (calls : List ToolCall)
  | toolResult (tool_call_id : String) (name : String) (content : ToolContent)
deriving Repr, DecidableEq

/-- A value as an output-schema instance: the names of the pydantic
classes it is an instance of, and its payload kept abstract. -/
structure OutputVal where
  schemaOf : List String
  payload : String
deriving Repr, DecidableEq

/-- A value returned by `provider.generate_response`, as `BaseAgent.run`
observes it: an output-schema instance, a chat-completion object with a
(possibly empty) `choices[0].message.tool_calls` list, or anything
else. -/
inductive PResponse where
  | instanceOf (o : OutputVal)
  | chat (calls : List ToolCall)
  | other (descr : String)
deriving Repr, DecidableEq

/-- Rendering of `type(response)` used in the `TypeError` detail text;
the textual form of a Python type object is abstracted. -/
def PResponse.typeName : PResponse → String
  | .instanceOf _ => "OutputSchemaInstance"
  | .chat _ => "ChatCompletion"
  | .other d => d

/-- Tool descriptor in LLM function-calling format, as produced by
`_prepare_llm_tools`; the rendered JSON parameter schema is abstract. -/
structure LlmToolDecl where
  name : String
  description : String
  parameters : String
deriving Repr, DecidableEq

/-- The arguments of one `provider.generate_response` call. -/
structure ProviderArgs where
  prompt : List Message
  outputSchema : String
  tools : Option (List LlmToolDecl)
  toolChoice : Option String
deriving Repr, DecidableEq

/-- The behaviour of one provider call: return a value, raise a pydantic
`ValidationError`, or raise any other exception. -/
inductive ProviderBehavior where
  | returns (r : PResponse)
  | raisesValidation (msg : String)
  | raises (msg : String)

/-- The behaviour of one tool `run` call: return a tool output or raise. -/
inductive ToolRunBehavior where
  | returns (out : ToolOutput)
  | raises (msg : String)

/-- A registered tool: its name, description (empty string models a
falsy `get_description()`), the rendered JSON schema of its input
(`none` models `model_json_schema()` raising, which makes
`_prepare_llm_tools` skip the tool), the input-schema validation
(construction of the input model from the parsed argument dictionary;
`error` models a pydantic `ValidationError`), and the `run` method. -/
structure Tool where
  name : String
  description : String
  jsonSchema : Option String
  validate : String → Except String String
  run : String → ToolRunBehavior

/-- One retrieved memory (`MemoryQueryResult`): the record text and its
timestamp already rendered with `strftime`. -/
structure MemoryQueryResult where
  timestampStr : String
  text : String
deriving Repr, DecidableEq

/-- The behaviour of `memory_manager.retrieve_relevant_memories`. -/
inductive MemRetrieveBehavior where
  | returns (mems : List MemoryQueryResult)
  | raises (msg : String)

/-- A memory manager, observed through its single method used by `run`:
query text and `n_results` determine the behaviour. -/
def MemoryManager := String → Nat → MemRetrieveBehavior

/-- Agent input value: the names of the pydantic classes it is an
instance of, and its `chat_message` field. -/
structure InputData where
  instanceOf : List String
  chat_message : String
deriving Repr, DecidableEq

/-- `str(input_data)`, abstracted to the chat message it carries. -/
def InputData.repr (i : InputData) : String := i.chat_message

/-- The structured error value (`AgentErrorSchema`). -/
structure AgentErrorSchema where
  error_type : String
  error_message : String
  details : String
deriving Repr, DecidableEq

/-- The value `BaseAgent.run` returns: either a provider value handed
back (the validated first response or the verbatim second response) or
an `AgentErrorSchema`. -/
inductive RunResult where
  | value (r : PResponse)
  | error (e : AgentErrorSchema)
deriving Repr, DecidableEq

/-- Whether a run result is an instance of the configured output-schema
family. -/
def RunResult.isOutputFamily (outputSchema : String) : RunResult → Bool
  | .value (.instanceOf o) => o.schemaOf.contains outputSchema
  | _ => false

/-- Whether a run result is an `AgentErrorSchema`. -/
def RunResult.isAgentError : RunResult → Bool
  | .error _ => true
  | _ => false

/-- Externally visible events of one turn, in order: provider calls and
tool invocations (a `toolRun` event is recorded exactly when the `run`
method of a tool is entered). -/
inductive Event where
  | providerCall (args : ProviderArgs)
  | toolRun (name : String) (input : String)
deriving Repr, DecidableEq

/-- Whether an event list contains a provider call. -/
def calledProvider (evts : List Event) : Bool :=
  evts.any fun e => match e with
    | .providerCall _ => true
    | _ => false

/-- The agent configuration (`BaseAgentConfig`), with the defaults of
the pydantic model. -/
structure AgentConfig where
  provider : ProviderArgs → ProviderBehavior
  inputSchema : String := "BaseInputSchema"
  outputSchema : String := "BaseOutputSchema"
  systemPrompt : Option String := some "You are a helpful assistant."
  memoryManager : Option MemoryManager := none
  memoryQueryResults : Nat := 3
  tools : Option (List Tool) := none

/-- The agent object after `BaseAgent.__init__`: the stored config plus
the fields copied or derived from it. -/
structure Agent where
  config : AgentConfig
  provider : ProviderArgs → ProviderBehavior
  memoryManager : Option MemoryManager
  tools : List Tool
  toolMap : List (String × Tool)
  llmTools : Option (List LlmToolDecl)

/-- Python dict lookup `tool_map.get(name)` on the association list. -/
def dictGet (m : List (String × Tool)) (k : String) : Option Tool :=
  (m.find? fun p => p.1 == k).map (fun p => p.2)

/-- Building `self.tool_map = {tool.get_name(): tool for tool in self.tools}`:
a later tool with the same name overwrites the earlier entry. -/
def mkToolMap (tools : List Tool) : List (String × Tool) :=
  tools.foldl
    (fun m t =>
      if m.any (fun p => p.1 == t.name) then
        m.map (fun p => if p.1 == t.name then (p.1, t) else p)
      else
        m ++ [(t.name, t)])
    []

/-- `_prepare_llm_tools`: `None` for an empty tool list; otherwise each
tool is rendered to function-calling format, with a default description
for a falsy `get_description()`; a tool whose schema rendering raises is
skipped with a warning; `None` again if every tool was skipped. -/
def prepareLlmTools (tools : List Tool) : Option (List LlmToolDecl) :=
  if tools.isEmpty then none
  else
    let ds := tools.filterMap fun t =>
      match t.jsonSchema with
      | none => none
      | some sch =>
          some { name := t.name,
                 description :=
                   if t.description == "" then
                     "Executes the " ++ t.name ++ " tool."
                   else t.description,
                 parameters := sch }
    if ds.isEmpty then none else some ds

/-- `BaseAgent.__init__`: store the config, copy the provider and memory
manager, normalise `config.tools or []`, build the tool map and the LLM
tool descriptors. -/
def BaseAgent.init (config : AgentConfig) : Agent :=
  let tools := config.tools.getD []
  { config := config
    provider := config.provider
    memoryManager := config.memoryManager
    tools := tools
    toolMap := mkToolMap tools
    llmTools := prepareLlmTools tools }

/-- Python truthiness of `self.llm_tools` (`None` and `[]` are falsy). -/
def truthyTools : Option (List LlmToolDecl) → Bool
  | none => false
  | some l => !l.isEmpty

/-- The default system prompt and the `or` fallback for a falsy
configured prompt. -/
def effectiveSystemPrompt : Option String → String
  | none => "You are a helpful assistant."
  | some s => if s == "" then "You are a helpful assistant." else s

/-- The memory context block appended to the system prompt when
memories were retrieved. -/
def memoryContext (mems : List MemoryQueryResult) : String :=
  mems.foldl
    (fun acc m => acc ++ "- (" ++ m.timestampStr ++ "): " ++ m.text ++ "\n")
    "\n\nRelevant previous information:\n"

/-- `_create_prompt`: system message (with the memory block when the
retrieved list is nonempty) followed by the user message. -/
def createPrompt (sp : Option String) (inputMessage : String)
    (mems : List MemoryQueryResult) : List Message :=
  let base := effectiveSystemPrompt sp
  let systemContent := if mems.isEmpty then base else base ++ memoryContext mems
  (if systemContent == "" then [] else [Message.system systemContent])
    ++ [Message.user inputMessage]

/-- The error message raised by `_parse_tool_arguments` on invalid JSON. -/
def invalidJsonMsg (name args : String) : String :=
  "Invalid JSON arguments received for tool \x27" ++ name ++ "\x27: " ++ args

/-- The failure text for an unknown tool name. -/
def notFoundMsg (name : String) : String :=
  "Tool \x27" ++ name ++ "\x27 not found."

/-- The failure text wrapping an argument parsing or validation error. -/
def invalidArgsMsg (err : String) : String :=
  "Invalid arguments provided: " ++ err

/-- The failure text wrapping an exception raised by the tool run. -/
def execFailedMsg (err : String) : String :=
  "Tool execution failed: " ++ err

/-- The content of the tool-result message `BaseAgent.run` builds for
one requested call: unknown tool, invalid JSON, input-schema validation
failure and a raising run all become inline failure objects; a returning
run is dumped. `jsonLoads` models `json.loads`. -/
def toolCallContent (jsonLoads : String → Except String String)
    (tmap : List (String × Tool)) (c : ToolCall) : ToolContent :=
  match dictGet tmap c.name with
  | none => .jsonFailure (notFoundMsg c.name)
  | some tool =>
      match jsonLoads c.arguments with
      | .error _ => .jsonFailure (invalidArgsMsg (invalidJsonMsg c.name c.arguments))
      | .ok argsDict =>
          match tool.validate argsDict with
          | .error vmsg => .jsonFailure (invalidArgsMsg vmsg)
          | .ok input =>
              match tool.run input with
              | .returns out => .dumped out
              | .raises emsg => .jsonFailure (execFailedMsg emsg)

/-- The tool invocations performed while processing one requested call:
exactly one when the name resolved and the arguments parsed and
validated, none otherwise. -/
def toolCallEvents (jsonLoads : String → Except String String)
    (tmap : List (String × Tool)) (c : ToolCall) : List Event :=
  match dictGet tmap c.name with
  | none => []
  | some tool =>
      match jsonLoads c.arguments with
      | .error _ => []
      | .ok argsDict =>
          match tool.validate argsDict with
          | .error _ => []
          | .ok input => [Event.toolRun c.name input]

/-- The tool-result message appended for one requested call. -/
def toolCallMessage (jsonLoads : String → Except String String)
    (tmap : List (String × Tool)) (c : ToolCall) : Message :=
  .toolResult c.id c.name (toolCallContent jsonLoads tmap c)

/-- The memories available after step 0 of `run`: empty when no manager
is configured, and empty again when retrieval raises (the exception is
swallowed). -/
def Agent.retrieved (a : Agent) (input : InputData) : List MemoryQueryResult :=
  match a.memoryManager with
  | none => []
  | some mm =>
      match mm input.chat_message a.config.memoryQueryResults with
      | .returns ms => ms
      | .raises _ => []

/-- The arguments of the first provider call of a turn, given the
memories retrieved in step 0. -/
def Agent.firstArgs (a : Agent) (input : InputData)
    (mems : List MemoryQueryResult) : ProviderArgs :=
  { prompt := createPrompt a.config.systemPrompt input.chat_message mems
    outputSchema := a.config.outputSchema
    tools := a.llmTools
    toolChoice := if truthyTools a.llmTools then some "auto" else none }

/-- The arguments of the second provider call, after the assistant
tool-call message and one tool-result message per requested call have
been appended to the prompt. -/
def Agent.secondArgs (a : Agent) (jsonLoads : String → Except String String)
    (input : InputData) (mems : List MemoryQueryResult)
    (calls : List ToolCall) : ProviderArgs :=
  { prompt := (a.firstArgs input mems).prompt
      ++ [Message.assistantToolCalls calls]
      ++ calls.map (toolCallMessage jsonLoads a.toolMap)
    outputSchema := a.config.outputSchema
    tools := none
    toolChoice := some "none" }

/-- The `AgentErrorSchema` built from a pydantic `ValidationError`. -/
def outputValidationError (details : String) : AgentErrorSchema :=
  { error_type := "OutputValidationError"
    error_message := "LLM output failed validation against the output schema."
    details := details }

/-- The `AgentErrorSchema` built from any other exception. -/
def runtimeError (details : String) : AgentErrorSchema :=
  { error_type := "RuntimeError"
    error_message := "An unexpected error occurred during agent execution."
    details := details }

/-- The detail text of the `TypeError` raised for a response that
neither carries tool calls nor is an instance of the output schema. -/
def unexpectedTypeDetail (resp : PResponse) (outputSchema : String) : String :=
  "Unexpected response type from provider: " ++ resp.typeName
    ++ ". Expected " ++ outputSchema ++ " or object with tool_calls."

/-- The tool-execution path of `run`, entered when the first response
carries a nonempty tool-call list: run every requested call, extend the
prompt, make the second provider call with `tool_choice="none"` and
return its value verbatim; a raised `ValidationError` or other
exception is mapped to the corresponding error schema. -/
def Agent.runToolPath (a : Agent) (jsonLoads : String → Except String String)
    (input : InputData) (mems : List MemoryQueryResult)
    (calls : List ToolCall) : RunResult × List Event :=
  match a.provider (a.secondArgs jsonLoads input mems calls) with
  | .returns final =>
      (.value final,
       (calls.map (toolCallEvents jsonLoads a.toolMap)).flatten
         ++ [Event.providerCall (a.secondArgs jsonLoads input mems calls)])
  | .raisesValidation m =>
      (.error (outputValidationError m),
       (calls.map (toolCallEvents jsonLoads a.toolMap)).flatten
         ++ [Event.providerCall (a.secondArgs jsonLoads input mems calls)])
  | .raises m =>
      (.error (runtimeError m),
       (calls.map (toolCallEvents jsonLoads a.toolMap)).flatten
         ++ [Event.providerCall (a.secondArgs jsonLoads input mems calls)])

/-- The body of one turn of `BaseAgent.run` given the memories of
step 0: input validation, prompt construction, first provider call,
optional tool execution with a second provider call, and the mapping
of raised exceptions to `AgentErrorSchema` values. Returns the result
and the ordered provider/tool events. -/
def BaseAgent.runCore (a : Agent) (jsonLoads : String → Except String String)
    (input : InputData) (mems : List MemoryQueryResult) : RunResult × List Event :=
  if !(input.instanceOf.contains a.config.inputSchema) then
    (.error { error_type := "InputValidationError"
              error_message := "Input data does not conform to the expected schema: "
                ++ a.config.inputSchema
              details := input.repr },
     [])
  else
    match a.provider (a.firstArgs input mems) with
    | .raisesValidation m =>
        (.error (outputValidationError m), [Event.providerCall (a.firstArgs input mems)])
    | .raises m =>
        (.error (runtimeError m), [Event.providerCall (a.firstArgs input mems)])
    | .returns resp =>
        match resp with
        | .chat calls =>
            if calls.isEmpty then
              (.error (runtimeError (unexpectedTypeDetail (.chat calls) a.config.outputSchema)),
               [Event.providerCall (a.firstArgs input mems)])
            else
              ((a.runToolPath jsonLoads input mems calls).1,
               Event.providerCall (a.firstArgs input mems)
                 :: (a.runToolPath jsonLoads input mems calls).2)
        | .instanceOf o =>
            if o.schemaOf.contains a.config.outputSchema then
              (.value (.instanceOf o), [Event.providerCall (a.firstArgs input mems)])
            else
              (.error (runtimeError (unexpectedTypeDetail (.instanceOf o) a.config.outputSchema)),
               [Event.providerCall (a.firstArgs input mems)])
        | .other d =>
            (.error (runtimeError (unexpectedTypeDetail (.other d) a.config.outputSchema)),
             [Event.providerCall (a.firstArgs input mems)])

/-- `BaseAgent.run`, one turn: the core with the memories retrieved by
the best-effort step 0, together with the agent object after the turn
(the method assigns to none of the agent fields). -/
def BaseAgent.run (a : Agent) (jsonLoads : String → Except String String)
    (input : InputData) : RunResult × List Event × Agent :=
  ((BaseAgent.runCore a jsonLoads input (a.retrieved input)).1,
   (BaseAgent.runCore a jsonLoads input (a.retrieved input)).2,
   a)

/-!
Concrete fixtures used by witnesses and counterexamples: a calculator
tool, a `json.loads` model, inputs, and providers that key the call
number off the `tool_choice` argument (the second call is the only one
made with `tool_choice="none"`).
-/

/-- A model of `json.loads`: the literal `"bad-json"` fails to decode,
every other raw string parses to itself as an abstract dictionary. -/
def stdJsonLoads : String → Except String String :=
  fun s => if s == "bad-json" then .error "Expecting value" else .ok s

/-- A concrete calculator tool: arguments `"args-ok"` validate,
`"args-div0"` validates but makes the run raise, anything else fails
input-schema validation. -/
def calcTool : Tool :=
  { name := "calculator"
    description := "Performs arithmetic."
    jsonSchema := some "calc-params"
    validate := fun d =>
      if d == "args-ok" then .ok "calc-input"
      else if d == "args-div0" then .ok "calc-input-div0"
      else .error "field required: operand2"
    run := fun i =>
      if i == "calc-input" then
        .returns { success := true, error_message := none, result := "15" }
      else .raises "Division by zero" }

/-- A conforming agent input. -/
def okInput : InputData :=
  { instanceOf := ["BaseInputSchema"], chat_message := "What is 5 times 3?" }

/-- An input that is not an instance of the configured input schema. -/
def badInput : InputData :=
  { instanceOf := ["SomeOtherModel"], chat_message := "hello" }

/-- A provider that answers the first call (any `tool_choice` other
than `"none"`) with `r1` and the second call with `r2`. -/
def twoStepProvider (r1 r2 : ProviderBehavior) : ProviderArgs → ProviderBehavior :=
  fun args => if args.toolChoice == some "none" then r2 else r1

/-- A conforming output value for the default output schema. -/
def goodOutput : OutputVal :=
  { schemaOf := ["BaseOutputSchema"], payload := "5 times 3 is 15." }

/-- Builds an agent over the default config with the given provider and
tools, through `BaseAgent.init`. -/
def mkAgent (p : ProviderArgs → ProviderBehavior) (tools : List Tool) : Agent :=
  BaseAgent.init { provider := p
                   tools := if tools.isEmpty then none else some tools }

/-- A request for the calculator tool with arguments that parse and
validate. -/
def calcCall : ToolCall :=
  { id := "call_123", name := "calculator", arguments := "args-ok" }

/-- An agent whose provider requests the calculator on the first call
and answers with a conforming output on the second. -/
def toolAgent : Agent :=
  mkAgent (twoStepProvider (.returns (.chat [calcCall]))
    (.returns (.instanceOf goodOutput))) [calcTool]

/-- A request naming a tool that is not registered. -/
def unknownCall : ToolCall :=
  { id := "call_456", name := "unknown_tool", arguments := "args-ok" }

/-- An agent whose provider requests an unknown tool on the first call
and answers with a conforming output on the second. -/
def unknownToolAgent : Agent :=
  mkAgent (twoStepProvider (.returns (.chat [unknownCall]))
    (.returns (.instanceOf goodOutput))) [calcTool]

/-- A calculator request whose raw argument string is not valid JSON. -/
def badJsonCall : ToolCall :=
  { id := "call_789", name := "calculator", arguments := "bad-json" }

/-- An agent whose provider requests the calculator with invalid JSON
arguments on the first call and answers on the second. -/
def badJsonAgent : Agent :=
  mkAgent (twoStepProvider (.returns (.chat [badJsonCall]))
    (.returns (.instanceOf goodOutput))) [calcTool]

/-- Whether a turn trace contains a tool invocation. -/
def ranTool (evts : List Event) : Bool :=
  evts.any fun e => match e with
    | .toolRun _ _ => true
    | _ => false

/-- The `error_type` of a run result, when it is an error schema. -/
def RunResult.errType : RunResult → Option String
  | .error e => some e.error_type
  | .value _ => none

/-- Modelled from the spec: stripping "any backend-specific namespace
prefix such as a leading qualifier segment" from a provider-returned
tool name — the characters up to and including the first dot (char 46)
are dropped when a dot is present. This models the resolution step the
spec describes; the code under `src/karo/core/base_agent.py` performs
the lookup on the raw name. -/
def dropThroughDot : List Char → Option (List Char)
  | [] => none
  | c :: cs => if c = Char.ofNat 46 then some cs else dropThroughDot cs

/-- Modelled from the spec (continued): the stripped name, when a dot
separated qualifier is present; the name itself otherwise. -/
def stripNamespaceQualifier (name : String) : String :=
  match dropThroughDot name.toList with
  | none => name
  | some rest => String.mk rest

/-- A memory manager whose backend raises on every query. -/
def raisingMemoryManager : MemoryManager :=
  fun _ _ => .raises "backend down"

/-- An agent with a raising memory manager and a well-behaved provider. -/
def memFailAgent : Agent :=
  BaseAgent.init
    { provider := twoStepProvider (.returns (.instanceOf goodOutput))
        (.returns (.instanceOf goodOutput))
      memoryManager := some raisingMemoryManager }

/-- An agent whose provider requests the calculator on the first call
and returns a value that is neither an output-schema instance nor an
error on the second call. -/
def junkSecondAgent : Agent :=
  mkAgent (twoStepProvider (.returns (.chat [calcCall]))
    (.returns (.other "raw-tool-call-response"))) [calcTool]

/-- An output value that instantiates a different schema than the
configured one. -/
def wrongSchemaOutput : OutputVal :=
  { schemaOf := ["SomeOtherOutputModel"], payload := "mismatch" }

/-- An agent whose provider requests the calculator on the first call
and returns a non-conforming output instance on the second call. -/
def nonconformingSecondAgent : Agent :=
  mkAgent (twoStepProvider (.returns (.chat [calcCall]))
    (.returns (.instanceOf wrongSchemaOutput))) [calcTool]

/-- An output value instantiating an unrelated schema, used as a first
response. -/
def wrongFirstOutput : OutputVal :=
  { schemaOf := ["UnrelatedModel"], payload := "bad-direct" }

/-- An agent whose provider directly answers with a non-conforming
instance and no tool calls. -/
def invalidDirectAgent : Agent :=
  mkAgent (twoStepProvider (.returns (.instanceOf wrongFirstOutput))
    (.returns (.instanceOf goodOutput))) []

/-- A request whose tool name carries a backend namespace qualifier in
front of a registered tool name. -/
def prefixedCall : ToolCall :=
  { id := "call_900", name := "functions.calculator", arguments := "args-ok" }

/-- An agent whose provider requests the qualified calculator name. -/
def prefixedAgent : Agent :=
  mkAgent (twoStepProvider (.returns (.chat [prefixedCall]))
    (.returns (.instanceOf goodOutput))) [calcTool]

/-!
Claim theorems.
-/

/-- C5: for every input value that is not an instance of the configured
input schema, `BaseAgent.run` returns an `AgentErrorSchema` with
`error_type = "InputValidationError"` and the provider
`generate_response` is never called on that turn. -/
theorem run_rejects_malformed_input (a : Agent)
    (jl : String → Except String String) (input : InputData)
    (h : input.instanceOf.contains a.config.inputSchema = false) :
    BaseAgent.run a jl input =
      (.error { error_type := "InputValidationError"
                error_message := "Input data does not conform to the expected schema: "
                  ++ a.config.inputSchema
                details := input.repr },
       [], a)
    ∧ calledProvider (BaseAgent.run a jl input).2.1 = false := by
  unfold BaseAgent.run BaseAgent.runCore
  rw [h]
  exact ⟨rfl, rfl⟩

/-- Witness for C5: a concrete malformed input is rejected with an
input-validation error and an empty event trace. -/
theorem run_rejects_malformed_input_witness :
    BaseAgent.run (mkAgent (twoStepProvider (.returns (.instanceOf goodOutput))
        (.returns (.instanceOf goodOutput))) []) stdJsonLoads badInput =
      (.error { error_type := "InputValidationError"
                error_message := "Input data does not conform to the expected schema: "
                  ++ (mkAgent (twoStepProvider (.returns (.instanceOf goodOutput))
                      (.returns (.instanceOf goodOutput))) []).config.inputSchema
                details := badInput.repr },
       [], mkAgent (twoStepProvider (.returns (.instanceOf goodOutput))
            (.returns (.instanceOf goodOutput))) [])
    ∧ calledProvider (BaseAgent.run (mkAgent (twoStepProvider
        (.returns (.instanceOf goodOutput)) (.returns (.instanceOf goodOutput))) [])
        stdJsonLoads badInput).2.1 = false :=
  run_rejects_malformed_input _ stdJsonLoads badInput (by decide)

/-- C10: one call to `run` leaves the agent object itself unchanged:
the returned agent state (carrying `config`, `provider`,
`memory_manager`, `tools`, `tool_map` and `llm_tools`) is the input
agent, for every provider, tool and memory behaviour. -/
theorem run_preserves_agent_state (a : Agent)
    (jl : String → Except String String) (input : InputData) :
    (BaseAgent.run a jl input).2.2 = a
    ∧ ((BaseAgent.run a jl input).2.2).config = a.config
    ∧ ((BaseAgent.run a jl input).2.2).provider = a.provider
    ∧ ((BaseAgent.run a jl input).2.2).memoryManager = a.memoryManager
    ∧ ((BaseAgent.run a jl input).2.2).tools = a.tools
    ∧ ((BaseAgent.run a jl input).2.2).toolMap = a.toolMap
    ∧ ((BaseAgent.run a jl input).2.2).llmTools = a.llmTools :=
  ⟨rfl, rfl, rfl, rfl, rfl, rfl, rfl⟩

/-- C2: when the first provider response carries tool-call requests,
`run` appends the assistant tool-call message to the prompt history,
then exactly one tool-result message per requested call in request
order, each carrying that request id; it then calls the provider a
second time with `tool_choice="none"` and returns that second response
as the result of the turn. -/
theorem run_tool_call_sequencing (a : Agent) (jl : String → Except String String)
    (input : InputData) (calls : List ToolCall) (r2 : PResponse)
    (hin : input.instanceOf.contains a.config.inputSchema = true)
    (hfirst : a.provider (a.firstArgs input (a.retrieved input)) = .returns (.chat calls))
    (hne : calls.isEmpty = false)
    (hsecond : a.provider (a.secondArgs jl input (a.retrieved input) calls) = .returns r2) :
    (a.secondArgs jl input (a.retrieved input) calls).prompt
        = (a.firstArgs input (a.retrieved input)).prompt ++ [Message.assistantToolCalls calls]
          ++ calls.map (toolCallMessage jl a.toolMap)
    ∧ (∀ c, toolCallMessage jl a.toolMap c
          = .toolResult c.id c.name (toolCallContent jl a.toolMap c))
    ∧ (a.secondArgs jl input (a.retrieved input) calls).toolChoice = some "none"
    ∧ BaseAgent.run a jl input
        = (.value r2,
           Event.providerCall (a.firstArgs input (a.retrieved input))
             :: ((calls.map (toolCallEvents jl a.toolMap)).flatten
                 ++ [Event.providerCall (a.secondArgs jl input (a.retrieved input) calls)]),
           a) := by
  refine ⟨rfl, fun c => rfl, rfl, ?_⟩
  simp only [BaseAgent.run, BaseAgent.runCore, hin, Bool.not_true, Bool.false_eq_true, if_false,
    hfirst, hne, Agent.runToolPath, hsecond]

/-- Witness for C2 on a concrete agent, calculator tool and two-step
provider. -/
theorem run_tool_call_sequencing_witness :
    (toolAgent.secondArgs stdJsonLoads okInput (toolAgent.retrieved okInput) [calcCall]).prompt
        = (toolAgent.firstArgs okInput (toolAgent.retrieved okInput)).prompt ++ [Message.assistantToolCalls [calcCall]]
          ++ [calcCall].map (toolCallMessage stdJsonLoads toolAgent.toolMap)
    ∧ (∀ c, toolCallMessage stdJsonLoads toolAgent.toolMap c
          = .toolResult c.id c.name (toolCallContent stdJsonLoads toolAgent.toolMap c))
    ∧ (toolAgent.secondArgs stdJsonLoads okInput (toolAgent.retrieved okInput) [calcCall]).toolChoice = some "none"
    ∧ BaseAgent.run toolAgent stdJsonLoads okInput
        = (.value (.instanceOf goodOutput),
           Event.providerCall (toolAgent.firstArgs okInput (toolAgent.retrieved okInput))
             :: (([calcCall].map (toolCallEvents stdJsonLoads toolAgent.toolMap)).flatten
                 ++ [Event.providerCall (toolAgent.secondArgs stdJsonLoads okInput (toolAgent.retrieved okInput) [calcCall])]),
           toolAgent) :=
  run_tool_call_sequencing toolAgent stdJsonLoads okInput [calcCall]
    (.instanceOf goodOutput) rfl rfl rfl rfl

/-- C7: a requested tool name missing from the registry invokes no
tool, does not abort the turn (every requested call still yields a
tool-result message and the second provider call still happens), and
the second call prompt contains a tool-result message for that request
whose content has `success=false` and whose error text names the
unknown tool. -/
theorem run_unknown_tool_continues (a : Agent) (jl : String → Except String String)
    (input : InputData) (calls : List ToolCall) (c : ToolCall) (r2 : PResponse)
    (hin : input.instanceOf.contains a.config.inputSchema = true)
    (hfirst : a.provider (a.firstArgs input (a.retrieved input)) = .returns (.chat calls))
    (hne : calls.isEmpty = false)
    (hc : c ∈ calls)
    (hunknown : dictGet a.toolMap c.name = none)
    (hsecond : a.provider (a.secondArgs jl input (a.retrieved input) calls) = .returns r2) :
    toolCallEvents jl a.toolMap c = []
    ∧ toolCallContent jl a.toolMap c = .jsonFailure (notFoundMsg c.name)
    ∧ (toolCallContent jl a.toolMap c).successFlag = false
    ∧ notFoundMsg c.name = "Tool \x27" ++ c.name ++ "\x27 not found."
    ∧ Message.toolResult c.id c.name (.jsonFailure (notFoundMsg c.name))
        ∈ (a.secondArgs jl input (a.retrieved input) calls).prompt
    ∧ (a.secondArgs jl input (a.retrieved input) calls).prompt.length
        = (a.firstArgs input (a.retrieved input)).prompt.length + 1 + calls.length
    ∧ (BaseAgent.run a jl input).1 = .value r2
    ∧ Event.providerCall (a.secondArgs jl input (a.retrieved input) calls) ∈ (BaseAgent.run a jl input).2.1 := by
  have hcontent : toolCallContent jl a.toolMap c = .jsonFailure (notFoundMsg c.name) := by
    simp only [toolCallContent, hunknown]
  have hevents : toolCallEvents jl a.toolMap c = [] := by
    simp only [toolCallEvents, hunknown]
  have hrun : BaseAgent.run a jl input
      = (.value r2,
         Event.providerCall (a.firstArgs input (a.retrieved input))
           :: ((calls.map (toolCallEvents jl a.toolMap)).flatten
               ++ [Event.providerCall (a.secondArgs jl input (a.retrieved input) calls)]),
         a) := by
    simp only [BaseAgent.run, BaseAgent.runCore, hin, Bool.not_true, Bool.false_eq_true, if_false,
      hfirst, hne, Agent.runToolPath, hsecond]
  refine ⟨hevents, hcontent, by rw [hcontent]; rfl, rfl, ?_, ?_, by rw [hrun], ?_⟩
  · have hmem : toolCallMessage jl a.toolMap c ∈ calls.map (toolCallMessage jl a.toolMap) :=
      List.mem_map_of_mem _ hc
    rw [toolCallMessage, hcontent] at hmem
    exact List.mem_append.mpr (Or.inr hmem)
  · simp [Agent.secondArgs]
    omega
  · rw [hrun]
    simp

/-- Witness for C7: a concrete unknown-tool request is answered with a
not-found failure result and the turn still completes. -/
theorem run_unknown_tool_continues_witness :
    toolCallEvents stdJsonLoads unknownToolAgent.toolMap unknownCall = []
    ∧ toolCallContent stdJsonLoads unknownToolAgent.toolMap unknownCall
        = .jsonFailure (notFoundMsg unknownCall.name)
    ∧ (toolCallContent stdJsonLoads unknownToolAgent.toolMap unknownCall).successFlag = false
    ∧ notFoundMsg unknownCall.name = "Tool \x27" ++ unknownCall.name ++ "\x27 not found."
    ∧ Message.toolResult unknownCall.id unknownCall.name
        (.jsonFailure (notFoundMsg unknownCall.name))
        ∈ (unknownToolAgent.secondArgs stdJsonLoads okInput (unknownToolAgent.retrieved okInput) [unknownCall]).prompt
    ∧ (unknownToolAgent.secondArgs stdJsonLoads okInput (unknownToolAgent.retrieved okInput) [unknownCall]).prompt.length
        = (unknownToolAgent.firstArgs okInput (unknownToolAgent.retrieved okInput)).prompt.length + 1 + [unknownCall].length
    ∧ (BaseAgent.run unknownToolAgent stdJsonLoads okInput).1 = .value (.instanceOf goodOutput)
    ∧ Event.providerCall (unknownToolAgent.secondArgs stdJsonLoads okInput (unknownToolAgent.retrieved okInput) [unknownCall])
        ∈ (BaseAgent.run unknownToolAgent stdJsonLoads okInput).2.1 :=
  run_unknown_tool_continues unknownToolAgent stdJsonLoads okInput [unknownCall]
    unknownCall (.instanceOf goodOutput) rfl rfl rfl (List.mem_singleton.mpr rfl) rfl rfl

/-- C8: for a resolved tool, invalid JSON arguments and input-schema
validation failures leave the tool `run` uninvoked, and a raising `run`
is caught; each case yields a `success=false` failure content, the
tool-result message is part of the second call prompt, and the turn
result is the second provider response, never a turn-level error caused
by the tool failure. -/
theorem run_tool_failures_fed_back (a : Agent) (jl : String → Except String String)
    (input : InputData) (calls : List ToolCall) (c : ToolCall) (t : Tool) (r2 : PResponse)
    (hin : input.instanceOf.contains a.config.inputSchema = true)
    (hfirst : a.provider (a.firstArgs input (a.retrieved input)) = .returns (.chat calls))
    (hne : calls.isEmpty = false)
    (hc : c ∈ calls)
    (ht : dictGet a.toolMap c.name = some t)
    (hsecond : a.provider (a.secondArgs jl input (a.retrieved input) calls) = .returns r2) :
    (∀ e, jl c.arguments = .error e →
        toolCallEvents jl a.toolMap c = []
        ∧ toolCallContent jl a.toolMap c
            = .jsonFailure (invalidArgsMsg (invalidJsonMsg c.name c.arguments))
        ∧ (toolCallContent jl a.toolMap c).successFlag = false)
    ∧ (∀ d v, jl c.arguments = .ok d → t.validate d = .error v →
        toolCallEvents jl a.toolMap c = []
        ∧ toolCallContent jl a.toolMap c = .jsonFailure (invalidArgsMsg v)
        ∧ (toolCallContent jl a.toolMap c).successFlag = false)
    ∧ (∀ d i m, jl c.arguments = .ok d → t.validate d = .ok i → t.run i = .raises m →
        toolCallContent jl a.toolMap c = .jsonFailure (execFailedMsg m)
        ∧ (toolCallContent jl a.toolMap c).successFlag = false)
    ∧ Message.toolResult c.id c.name (toolCallContent jl a.toolMap c)
        ∈ (a.secondArgs jl input (a.retrieved input) calls).prompt
    ∧ (BaseAgent.run a jl input).1 = .value r2 := by
  refine ⟨?_, ?_, ?_, ?_, ?_⟩
  · intro e he
    have h1 : toolCallContent jl a.toolMap c
        = .jsonFailure (invalidArgsMsg (invalidJsonMsg c.name c.arguments)) := by
      simp only [toolCallContent, ht, he]
    exact ⟨by simp only [toolCallEvents, ht, he], h1, by rw [h1]; rfl⟩
  · intro d v hd hv
    have h1 : toolCallContent jl a.toolMap c = .jsonFailure (invalidArgsMsg v) := by
      simp only [toolCallContent, ht, hd, hv]
    exact ⟨by simp only [toolCallEvents, ht, hd, hv], h1, by rw [h1]; rfl⟩
  · intro d i m hd hi hm
    have h1 : toolCallContent jl a.toolMap c = .jsonFailure (execFailedMsg m) := by
      simp only [toolCallContent, ht, hd, hi, hm]
    exact ⟨h1, by rw [h1]; rfl⟩
  · have hmem : toolCallMessage jl a.toolMap c ∈ calls.map (toolCallMessage jl a.toolMap) :=
      List.mem_map_of_mem _ hc
    exact List.mem_append.mpr (Or.inr hmem)
  · simp only [BaseAgent.run, BaseAgent.runCore, hin, Bool.not_true, Bool.false_eq_true, if_false,
      hfirst, hne, Agent.runToolPath, hsecond]

/-- Witness for C8: a concrete invalid-JSON calculator request is fed
back as a failure result and the turn returns the second response. -/
theorem run_tool_failures_fed_back_witness :
    (stdJsonLoads badJsonCall.arguments = Except.error "Expecting value")
    ∧ toolCallEvents stdJsonLoads badJsonAgent.toolMap badJsonCall = []
    ∧ toolCallContent stdJsonLoads badJsonAgent.toolMap badJsonCall
        = .jsonFailure (invalidArgsMsg (invalidJsonMsg badJsonCall.name badJsonCall.arguments))
    ∧ (toolCallContent stdJsonLoads badJsonAgent.toolMap badJsonCall).successFlag = false
    ∧ Message.toolResult badJsonCall.id badJsonCall.name
        (toolCallContent stdJsonLoads badJsonAgent.toolMap badJsonCall)
        ∈ (badJsonAgent.secondArgs stdJsonLoads okInput (badJsonAgent.retrieved okInput) [badJsonCall]).prompt
    ∧ (BaseAgent.run badJsonAgent stdJsonLoads okInput).1 = .value (.instanceOf goodOutput) := by
  have h := run_tool_failures_fed_back badJsonAgent stdJsonLoads okInput [badJsonCall]
    badJsonCall calcTool (.instanceOf goodOutput) rfl rfl rfl
    (List.mem_singleton.mpr rfl) rfl rfl
  have hjson : stdJsonLoads badJsonCall.arguments = Except.error "Expecting value" := rfl
  obtain ⟨h1, _, _, h4, h5⟩ := h
  obtain ⟨he, hcont, hflag⟩ := h1 "Expecting value" hjson
  exact ⟨hjson, he, hcont, hflag, h4, h5⟩

/-- C9: when a configured memory manager raises on retrieval, `run`
swallows the failure and proceeds with an empty memory set: the prompt
carries no memory listing, the provider is still called, and the turn
behaves exactly as it would with no memory manager — the retrieval
failure alone never produces an `AgentErrorSchema`. -/
theorem run_memory_failure_best_effort (a : Agent)
    (jl : String → Except String String) (input : InputData)
    (mm : MemoryManager) (m : String)
    (hin : input.instanceOf.contains a.config.inputSchema = true)
    (hmm : a.memoryManager = some mm)
    (hraise : mm input.chat_message a.config.memoryQueryResults = .raises m) :
    a.retrieved input = []
    ∧ (a.firstArgs input (a.retrieved input)).prompt
        = createPrompt a.config.systemPrompt input.chat_message []
    ∧ ((BaseAgent.run a jl input).1, (BaseAgent.run a jl input).2.1)
        = ((BaseAgent.run { a with memoryManager := none } jl input).1,
           (BaseAgent.run { a with memoryManager := none } jl input).2.1)
    ∧ calledProvider (BaseAgent.run a jl input).2.1 = true := by
  have hret : a.retrieved input = [] := by
    simp only [Agent.retrieved, hmm, hraise]
  refine ⟨hret, by rw [hret]; rfl, ?_, ?_⟩
  · unfold BaseAgent.run BaseAgent.runCore
    rw [hret]
    rfl
  · unfold BaseAgent.run BaseAgent.runCore
    repeat' split
    all_goals first
      | rfl
      | (rename_i hcond
         rw [hin] at hcond
         exact absurd hcond (by decide))

/-- Witness for C9: a concrete agent with a raising memory backend
still completes its turn on the memory-free prompt. -/
theorem run_memory_failure_best_effort_witness :
    memFailAgent.retrieved okInput = []
    ∧ (memFailAgent.firstArgs okInput (memFailAgent.retrieved okInput)).prompt
        = createPrompt memFailAgent.config.systemPrompt okInput.chat_message []
    ∧ ((BaseAgent.run memFailAgent stdJsonLoads okInput).1,
       (BaseAgent.run memFailAgent stdJsonLoads okInput).2.1)
        = ((BaseAgent.run { memFailAgent with memoryManager := none } stdJsonLoads okInput).1,
           (BaseAgent.run { memFailAgent with memoryManager := none } stdJsonLoads okInput).2.1)
    ∧ calledProvider (BaseAgent.run memFailAgent stdJsonLoads okInput).2.1 = true :=
  run_memory_failure_best_effort memFailAgent stdJsonLoads okInput
    raisingMemoryManager "backend down" rfl rfl rfl

/-- C1 (amended): `run` never raises — it is a total map from every
provider, tool and memory behaviour (raising included) to a returned
value — and that value is an `AgentErrorSchema`, a conforming first
response, or, in the tool path, the second provider response returned
verbatim whatever it is. -/
theorem run_total_outcome_shape (a : Agent)
    (jl : String → Except String String) (input : InputData) :
    (∃ e, (BaseAgent.run a jl input).1 = .error e)
    ∨ (∃ o, (BaseAgent.run a jl input).1 = .value (.instanceOf o)
        ∧ o.schemaOf.contains a.config.outputSchema = true)
    ∨ (∃ calls r2,
        a.provider (a.firstArgs input (a.retrieved input)) = .returns (.chat calls)
        ∧ a.provider (a.secondArgs jl input (a.retrieved input) calls) = .returns r2
        ∧ (BaseAgent.run a jl input).1 = .value r2) := by
  cases hin : input.instanceOf.contains a.config.inputSchema with
  | false =>
      refine Or.inl ⟨{ error_type := "InputValidationError"
                       error_message := "Input data does not conform to the expected schema: "
                         ++ a.config.inputSchema
                       details := input.repr }, ?_⟩
      unfold BaseAgent.run BaseAgent.runCore
      rw [hin]
      rfl
  | true =>
      cases hb : a.provider (a.firstArgs input (a.retrieved input)) with
      | raisesValidation m =>
          refine Or.inl ⟨outputValidationError m, ?_⟩
          simp only [BaseAgent.run, BaseAgent.runCore, hin, Bool.not_true, Bool.false_eq_true, if_false, hb]
      | raises m =>
          refine Or.inl ⟨runtimeError m, ?_⟩
          simp only [BaseAgent.run, BaseAgent.runCore, hin, Bool.not_true, Bool.false_eq_true, if_false, hb]
      | returns r =>
          cases r with
          | other d =>
              refine Or.inl ⟨runtimeError (unexpectedTypeDetail (.other d) a.config.outputSchema), ?_⟩
              simp only [BaseAgent.run, BaseAgent.runCore, hin, Bool.not_true, Bool.false_eq_true, if_false, hb]
          | instanceOf o =>
              cases ho : o.schemaOf.contains a.config.outputSchema with
              | true =>
                  refine Or.inr (Or.inl ⟨o, ?_, ho⟩)
                  simp only [BaseAgent.run, BaseAgent.runCore, hin, Bool.not_true, Bool.false_eq_true, if_false,
                    hb, ho, if_true]
              | false =>
                  refine Or.inl
                    ⟨runtimeError (unexpectedTypeDetail (.instanceOf o) a.config.outputSchema), ?_⟩
                  simp only [BaseAgent.run, BaseAgent.runCore, hin, Bool.not_true, Bool.false_eq_true, if_false,
                    hb, ho, Bool.false_eq_true, if_false]
          | chat calls =>
              cases hc : calls.isEmpty with
              | true =>
                  refine Or.inl
                    ⟨runtimeError (unexpectedTypeDetail (.chat calls) a.config.outputSchema), ?_⟩
                  simp only [BaseAgent.run, BaseAgent.runCore, hin, Bool.not_true, Bool.false_eq_true, if_false,
                    hb, hc, if_true]
              | false =>
                  cases hs : a.provider (a.secondArgs jl input (a.retrieved input) calls) with
                  | returns r2 =>
                      refine Or.inr (Or.inr ⟨calls, r2, rfl, hs, ?_⟩)
                      simp only [BaseAgent.run, BaseAgent.runCore, hin, Bool.not_true, Bool.false_eq_true, if_false,
                        hb, hc, Agent.runToolPath, hs]
                  | raisesValidation m =>
                      refine Or.inl ⟨outputValidationError m, ?_⟩
                      simp only [BaseAgent.run, BaseAgent.runCore, hin, Bool.not_true, Bool.false_eq_true, if_false,
                        hb, hc, Agent.runToolPath, hs]
                  | raises m =>
                      refine Or.inl ⟨runtimeError m, ?_⟩
                      simp only [BaseAgent.run, BaseAgent.runCore, hin, Bool.not_true, Bool.false_eq_true, if_false,
                        hb, hc, Agent.runToolPath, hs]

/-- C1 is refuted as stated: with a provider whose second response is
neither an output-schema instance nor raising, `run` returns that
response verbatim — a value outside the output-schema family that is
not an `AgentErrorSchema` either. -/
theorem run_returns_unvalidated_second_response :
    (BaseAgent.run junkSecondAgent stdJsonLoads okInput).1
        = .value (.other "raw-tool-call-response")
    ∧ RunResult.isOutputFamily junkSecondAgent.config.outputSchema
        (BaseAgent.run junkSecondAgent stdJsonLoads okInput).1 = false
    ∧ RunResult.isAgentError
        (BaseAgent.run junkSecondAgent stdJsonLoads okInput).1 = false :=
  ⟨rfl, rfl, rfl⟩

/-- C3 (amended): a pydantic `ValidationError` raised while producing
the final output — by the first or the second provider call — yields an
`AgentErrorSchema` with `error_type = "OutputValidationError"`; the
second provider response, when returned as a value after tool
execution, is not re-validated by `run` and is returned as is. -/
theorem run_validation_error_mapping (a : Agent)
    (jl : String → Except String String) (input : InputData)
    (hin : input.instanceOf.contains a.config.inputSchema = true) :
    (∀ m, a.provider (a.firstArgs input (a.retrieved input)) = .raisesValidation m →
        (BaseAgent.run a jl input).1 = .error (outputValidationError m)
        ∧ (outputValidationError m).error_type = "OutputValidationError")
    ∧ (∀ calls m,
        a.provider (a.firstArgs input (a.retrieved input)) = .returns (.chat calls) →
        calls.isEmpty = false →
        a.provider (a.secondArgs jl input (a.retrieved input) calls) = .raisesValidation m →
        (BaseAgent.run a jl input).1 = .error (outputValidationError m)
        ∧ (outputValidationError m).error_type = "OutputValidationError")
    ∧ (∀ calls r2,
        a.provider (a.firstArgs input (a.retrieved input)) = .returns (.chat calls) →
        calls.isEmpty = false →
        a.provider (a.secondArgs jl input (a.retrieved input) calls) = .returns r2 →
        (BaseAgent.run a jl input).1 = .value r2) := by
  refine ⟨?_, ?_, ?_⟩
  · intro m hm
    constructor
    · simp only [BaseAgent.run, BaseAgent.runCore, hin, Bool.not_true, Bool.false_eq_true, if_false, hm]
    · rfl
  · intro calls m hfirst hne hm
    constructor
    · simp only [BaseAgent.run, BaseAgent.runCore, hin, Bool.not_true, Bool.false_eq_true, if_false,
        hfirst, hne, Agent.runToolPath, hm]
    · rfl
  · intro calls r2 hfirst hne hs
    simp only [BaseAgent.run, BaseAgent.runCore, hin, Bool.not_true, Bool.false_eq_true, if_false,
      hfirst, hne, Agent.runToolPath, hs]

/-- Witness for C3 (amended) on a concrete agent whose first provider
call raises a `ValidationError`. -/
theorem run_validation_error_mapping_witness :
    (BaseAgent.run (mkAgent (fun _ => .raisesValidation "1 validation error") [])
        stdJsonLoads okInput).1
      = .error (outputValidationError "1 validation error")
    ∧ (outputValidationError "1 validation error").error_type = "OutputValidationError" :=
  (run_validation_error_mapping (mkAgent (fun _ => .raisesValidation "1 validation error") [])
    stdJsonLoads okInput rfl).1 "1 validation error" rfl

/-- C3 is refuted as stated for the second response: a second provider
response that fails the configured output schema is returned verbatim,
not replaced by an output-validation error. -/
theorem run_skips_second_response_validation :
    (BaseAgent.run nonconformingSecondAgent stdJsonLoads okInput).1
        = .value (.instanceOf wrongSchemaOutput)
    ∧ wrongSchemaOutput.schemaOf.contains nonconformingSecondAgent.config.outputSchema = false
    ∧ RunResult.isAgentError
        (BaseAgent.run nonconformingSecondAgent stdJsonLoads okInput).1 = false :=
  ⟨rfl, rfl, rfl⟩

/-- C6 (amended): a first response with no tool-call requests is
returned unchanged when it is an instance of the configured output
schema; when the value fails that `isinstance` check, `run` returns an
`AgentErrorSchema` whose `error_type` is `"RuntimeError"` (from the
raised `TypeError`), not an output-validation error. -/
theorem run_direct_response_handling (a : Agent)
    (jl : String → Except String String) (input : InputData) (o : OutputVal)
    (hin : input.instanceOf.contains a.config.inputSchema = true)
    (hfirst : a.provider (a.firstArgs input (a.retrieved input)) = .returns (.instanceOf o)) :
    (o.schemaOf.contains a.config.outputSchema = true →
        BaseAgent.run a jl input
          = (.value (.instanceOf o),
             [Event.providerCall (a.firstArgs input (a.retrieved input))], a))
    ∧ (o.schemaOf.contains a.config.outputSchema = false →
        (BaseAgent.run a jl input).1
          = .error (runtimeError (unexpectedTypeDetail (.instanceOf o) a.config.outputSchema))
        ∧ (runtimeError (unexpectedTypeDetail (.instanceOf o) a.config.outputSchema)).error_type
            = "RuntimeError") := by
  constructor
  · intro ho
    simp only [BaseAgent.run, BaseAgent.runCore, hin, Bool.not_true, Bool.false_eq_true, if_false, hfirst, ho,
      if_true]
  · intro ho
    constructor
    · simp only [BaseAgent.run, BaseAgent.runCore, hin, Bool.not_true, Bool.false_eq_true, if_false, hfirst, ho,
        if_false]
    · rfl

/-- Witness for C6 (amended): a concrete conforming direct response is
returned unchanged. -/
theorem run_direct_response_handling_witness :
    BaseAgent.run (mkAgent (fun _ => .returns (.instanceOf goodOutput)) [])
        stdJsonLoads okInput
      = (.value (.instanceOf goodOutput),
         [Event.providerCall ((mkAgent (fun _ => .returns (.instanceOf goodOutput)) []).firstArgs
           okInput ((mkAgent (fun _ => .returns (.instanceOf goodOutput)) []).retrieved okInput))],
         mkAgent (fun _ => .returns (.instanceOf goodOutput)) []) :=
  (run_direct_response_handling (mkAgent (fun _ => .returns (.instanceOf goodOutput)) [])
    stdJsonLoads okInput goodOutput rfl rfl).1 rfl

/-- C6 is refuted as stated for the failure case: a no-tool-call
response failing the schema check produces an error of type
`"RuntimeError"`, not the output-validation error the claim names. -/
theorem run_nonconforming_direct_is_runtime_error :
    wrongFirstOutput.schemaOf.contains invalidDirectAgent.config.outputSchema = false
    ∧ RunResult.errType (BaseAgent.run invalidDirectAgent stdJsonLoads okInput).1
        = some "RuntimeError"
    ∧ ("RuntimeError" : String) ≠ "OutputValidationError" :=
  ⟨rfl, rfl, by decide⟩

/-- C4 (amended): the tool to execute is resolved by exact dictionary
lookup of the raw provider-returned name against the registered names;
no namespace qualifier is stripped. An unresolved name yields the
not-found failure with no invocation; a resolved name runs the tool
registered under exactly that name. -/
theorem tool_resolution_exact_raw_name (jl : String → Except String String)
    (tmap : List (String × Tool)) (c : ToolCall) :
    (dictGet tmap c.name = none →
        toolCallContent jl tmap c = .jsonFailure (notFoundMsg c.name)
        ∧ toolCallEvents jl tmap c = [])
    ∧ (∀ t d i, dictGet tmap c.name = some t →
        jl c.arguments = .ok d → t.validate d = .ok i →
        toolCallEvents jl tmap c = [Event.toolRun c.name i]) := by
  constructor
  · intro hnone
    exact ⟨by simp only [toolCallContent, hnone], by simp only [toolCallEvents, hnone]⟩
  · intro t d i ht hd hi
    simp only [toolCallEvents, ht, hd, hi]

/-- Witness for C4 (amended): the qualified name resolves to nothing
and yields the not-found failure, while the exact registered name runs
the calculator. -/
theorem tool_resolution_exact_raw_name_witness :
    (toolCallContent stdJsonLoads prefixedAgent.toolMap prefixedCall
        = .jsonFailure (notFoundMsg prefixedCall.name)
      ∧ toolCallEvents stdJsonLoads prefixedAgent.toolMap prefixedCall = [])
    ∧ toolCallEvents stdJsonLoads prefixedAgent.toolMap calcCall
        = [Event.toolRun calcCall.name "calc-input"] :=
  ⟨(tool_resolution_exact_raw_name stdJsonLoads prefixedAgent.toolMap prefixedCall).1 rfl,
   (tool_resolution_exact_raw_name stdJsonLoads prefixedAgent.toolMap calcCall).2
     calcTool "args-ok" "calc-input" rfl rfl rfl⟩

/-- C4 is refuted as stated: the provider returns
`"functions.calculator"` while `"calculator"` is registered; stripping
the leading qualifier segment would resolve the calculator, but the
code looks up the raw name, finds no tool, invokes nothing and feeds
back a not-found failure for the qualified name. -/
theorem run_no_qualifier_stripping :
    stripNamespaceQualifier prefixedCall.name = calcTool.name
    ∧ (dictGet prefixedAgent.toolMap (stripNamespaceQualifier prefixedCall.name)).isSome = true
    ∧ dictGet prefixedAgent.toolMap prefixedCall.name = none
    ∧ toolCallContent stdJsonLoads prefixedAgent.toolMap prefixedCall
        = .jsonFailure (notFoundMsg prefixedCall.name)
    ∧ ranTool (BaseAgent.run prefixedAgent stdJsonLoads okInput).2.1 = false
    ∧ (BaseAgent.run prefixedAgent stdJsonLoads okInput).1 = .value (.instanceOf goodOutput) := by
  refine ⟨?_, ?_, rfl, rfl, rfl, rfl⟩
  · rfl
  · rfl

end Karo
